import Mathlib

/-!
Shallow embedding of `src/stg/_wrapper/downloadnet.py` (class `STG4000`).

The wrapper is a thin adapter over a vendor device driver: each public
operation issues a sequence of low-level calls on the Device Handle
(`self.interface()`).  We embed each operation as the list of device calls it
issues, in order.  The live device state an operation consults (the reported
channel count, read through the `channel_count` property) is passed in as an
explicit argument.  Operations that can refuse input before touching the
device return the pair (calls issued, error message raised), mirroring the
fact that a Python exception raised before the first device call leaves the
device with zero invocations.
-/

namespace STG4000

/-- One low-level call on the Device Handle, as issued by the wrapper.
Constructors mirror the SDK methods used in `downloadnet.py`:
`SetCurrentMode()` / `SetCurrentMode(chan)`, `SetVoltageMode()` /
`SetVoltageMode(chan)`, `GetNumberOfAnalogChannels()`, `SetupTrigger`,
`SendStart`, `SendStop` and `PrepareAndSendData`.  The final `String` field of
`prepareAndSendData` records which mode tag (`CURRENT` / `VOLTAGE`) the call
carries. -/
inductive DeviceCall where
  | setCurrentModeAll : DeviceCall
  | setCurrentModeChan (chan : ℕ) : DeviceCall
  | setVoltageModeAll : DeviceCall
  | setVoltageModeChan (chan : ℕ) : DeviceCall
  | getNumberOfAnalogChannels : DeviceCall
  | setupTrigger (base : ℕ) (channelmap syncoutmap repeats : List ℕ) : DeviceCall
  | sendStart (mask : ℕ) : DeviceCall
  | sendStop (mask : ℕ) : DeviceCall
  | prepareAndSendData (chan : ℕ) (amplitudes durations : List ℤ) (mode : String) : DeviceCall
deriving DecidableEq

/-- Whether a call is one of the four electrical-mode set forms. -/
def DeviceCall.isModeSet : DeviceCall → Bool
  | .setCurrentModeAll => true
  | .setCurrentModeChan _ => true
  | .setVoltageModeAll => true
  | .setVoltageModeChan _ => true
  | _ => false

/-- Whether a call is a waveform transfer (`PrepareAndSendData`). -/
def DeviceCall.isTransfer : DeviceCall → Bool
  | .prepareAndSendData _ _ _ _ => true
  | _ => false

/-- Modelled from the spec: `bitmap` is imported from `stg._wrapper.dll`,
which is not among the sources at hand; spec section 4.2 defines
`toBitmask(indices)` as the unsigned integer with bit i set iff index i is
present in `indices`, with the empty input giving 0 and duplicates
collapsing. -/
def bitmap (indices : List ℕ) : ℕ :=
  indices.foldl (fun acc i => acc ||| (1 <<< i)) 0

/-- `STG4000.set_current_mode`: with the default empty list a single
device-wide `SetCurrentMode()` is issued, otherwise one
`SetCurrentMode(chan)` per listed channel. -/
def set_current_mode (channel_index : List ℕ) : List DeviceCall :=
  if channel_index = [] then [.setCurrentModeAll]
  else channel_index.map .setCurrentModeChan

/-- `STG4000.set_voltage_mode`: with the default empty list a single
device-wide `SetVoltageMode()` is issued, otherwise one
`SetVoltageMode(chan)` per listed channel. -/
def set_voltage_mode (channel_index : List ℕ) : List DeviceCall :=
  if channel_index = [] then [.setVoltageModeAll]
  else channel_index.map .setVoltageModeChan

/-- `STG4000.channel_count` property: a single query on the Device Handle. -/
def channel_count_calls : List DeviceCall :=
  [.getNumberOfAnalogChannels]

/-- `STG4000.stop_stimulation`: the guard `triggerIndex == []` compares by
equality, so the default empty selection is resolved by querying the live
channel count (`channelCount` is the value the device reports at call time)
and taking the identity sequence `range channelCount`; a single `SendStop`
then carries the bitmap of the selection. -/
def stop_stimulation (channelCount : ℕ) (triggerIndex : List ℕ) : List DeviceCall :=
  if triggerIndex = [] then
    .getNumberOfAnalogChannels :: [.sendStop (bitmap (List.range channelCount))]
  else
    [.sendStop (bitmap triggerIndex)]

/-- `STG4000.start_stimulation`: the source guards the default resolution
with `triggerIndex is []`, a Python identity comparison against a freshly
constructed empty list, which is always false; hence the resolution branch is
dead and the start command always carries `bitmap(triggerIndex)` exactly as
given.  `channelCount` is the value the device would report at call time; it
is never consulted. -/
def start_stimulation (channelCount : ℕ) (triggerIndex : List ℕ) : List DeviceCall :=
  if False then
    .getNumberOfAnalogChannels :: [.sendStart (bitmap (List.range channelCount))]
  else
    [.sendStart (bitmap triggerIndex)]

/-- `STG4000.diagonalize_triggermap`: reads the live channel count, builds
the three parallel lists with `repeat.append(1)`,
`syncoutmap.append(1 << chan_idx)`, `channelmap.append(1 << chan_idx)` for
`chan_idx in range(0, channel_count)`, and issues a single
`SetupTrigger(0, channelmap, syncoutmap, repeat)`. -/
def diagonalize_triggermap (channelCount : ℕ) : List DeviceCall :=
  .getNumberOfAnalogChannels ::
    [.setupTrigger 0
      ((List.range channelCount).map fun chan_idx => 1 <<< chan_idx)
      ((List.range channelCount).map fun chan_idx => 1 <<< chan_idx)
      ((List.range channelCount).map fun _ => 1)]

/-- `STG4000._download`: validates that every amplitude has a duration
(raising `ValueError` before any device call otherwise), then for mode
`"current"` (resp. `"voltage"`) sets the mode on the listed channels and
issues one `PrepareAndSendData` per listed channel, in order; any other mode
string falls through the `if`/`elif` with no device call at all.  The result
pairs the device calls issued with the error message raised, if any.  The
`System.Int32` / `System.UInt64` wrappings of the integer samples are
value-preserving annotations for the managed SDK and are kept as the plain
integers. -/
def _download (channel_index : List ℕ) (amplitudes durations : List ℤ)
    (mode : String) : List DeviceCall × Option String :=
  if amplitudes.length ≠ durations.length then
    ([], some "Every amplitude needs a duration and vice versa!")
  else if mode = "current" then
    (set_current_mode channel_index ++
      channel_index.map (fun chan =>
        DeviceCall.prepareAndSendData chan amplitudes durations "current"), none)
  else if mode = "voltage" then
    (set_voltage_mode channel_index ++
      channel_index.map (fun chan =>
        DeviceCall.prepareAndSendData chan amplitudes durations "voltage"), none)
  else ([], none)

/-- Python `int(q)` on a real number: truncation toward zero. -/
def pyInt (q : ℚ) : ℤ :=
  if 0 ≤ q then ⌊q⌋ else ⌈q⌉

/-- `STG4000.download`: converts each amplitude with `int(a * 1000_000)` and
each duration with `int(s * 1000)`, then delegates to `_download` with the
single-element channel list and mode `"current"`. -/
def download (channel_index : ℕ) (amplitudes_in_mA durations_in_ms : List ℚ) :
    List DeviceCall × Option String :=
  _download [channel_index]
    (amplitudes_in_mA.map fun a => pyInt (a * 1000000))
    (durations_in_ms.map fun s => pyInt (s * 1000))
    "current"

/-- Python call-and-propagate semantics for a straight-line sequence of
device calls: run them in order against a device `dev`; the first failure
aborts the remainder, and its error is returned as raised.  The result pairs
the calls actually issued with the error, if any. -/
def runCalls (dev : DeviceCall → Except String Unit) :
    List DeviceCall → List DeviceCall × Option String
  | [] => ([], none)
  | c :: cs =>
    match dev c with
    | .error e => ([c], some e)
    | .ok _ => ((c :: (runCalls dev cs).1), (runCalls dev cs).2)

/-- A device double that answers the channel-count query and fails every
other call; used to exercise the failure-propagation theorem concretely. -/
def devBoom : DeviceCall → Except String Unit
  | .getNumberOfAnalogChannels => .ok ()
  | _ => .error "device fault"

/-! ## Helper lemmas -/

/-- The bitmask of the identity selection `0..n-1` has exactly the low `n`
bits set. -/
theorem bitmap_range (n : ℕ) : bitmap (List.range n) = 2 ^ n - 1 := by
  induction n with
  | zero => rfl
  | succ n ih =>
    rw [List.range_succ, bitmap, List.foldl_append]
    show (bitmap (List.range n)) ||| (1 <<< n) = 2 ^ (n + 1) - 1
    rw [ih, Nat.shiftLeft_eq, one_mul]
    apply Nat.eq_of_testBit_eq
    intro i
    simp only [Nat.testBit_or, Nat.testBit_two_pow_sub_one, Nat.testBit_two_pow]
    by_cases h : i < n <;> by_cases h2 : n = i <;> simp [h, h2] <;> omega

/-- Truncation toward zero lands within one unit of its argument and never
exceeds it in magnitude. -/
theorem pyInt_trunc (q : ℚ) : |(pyInt q : ℚ) - q| < 1 ∧ |(pyInt q : ℚ)| ≤ |q| := by
  unfold pyInt
  by_cases h : 0 ≤ q
  · rw [if_pos h]
    constructor
    · rw [abs_sub_lt_iff]
      constructor <;> linarith [Int.floor_le q, Int.lt_floor_add_one q]
    · rw [abs_of_nonneg h, abs_of_nonneg (by exact_mod_cast Int.floor_nonneg.mpr h)]
      exact_mod_cast Int.floor_le q
  · push_neg at h
    rw [if_neg (not_le.mpr h)]
    have hc0 : ⌈q⌉ ≤ (0 : ℤ) := Int.ceil_le.mpr (by exact_mod_cast h.le)
    have hc : ((⌈q⌉ : ℤ) : ℚ) ≤ 0 := by exact_mod_cast hc0
    constructor
    · rw [abs_sub_lt_iff]
      constructor <;> linarith [Int.le_ceil q, Int.ceil_lt_add_one q]
    · rw [abs_of_nonpos hc, abs_of_nonpos h.le]
      linarith [Int.le_ceil q]

/-- Filtering a mapped list by a predicate that holds of every image keeps
the whole list. -/
theorem filter_map_eq_self {α : Type} (p : DeviceCall → Bool) (f : α → DeviceCall)
    (h : ∀ x, p (f x) = true) (l : List α) : (l.map f).filter p = l.map f := by
  induction l with
  | nil => rfl
  | cons a t ih => simp [h a, ih]

/-- Filtering a mapped list by a predicate that holds of no image drops
everything. -/
theorem filter_map_eq_nil {α : Type} (p : DeviceCall → Bool) (f : α → DeviceCall)
    (h : ∀ x, p (f x) = false) (l : List α) : (l.map f).filter p = [] := by
  induction l with
  | nil => rfl
  | cons a t ih => simp [h a, ih]

/-- A mode-set call is not a transfer call. -/
theorem modeSet_not_transfer (d : DeviceCall) (h : d.isModeSet = true) :
    d.isTransfer = false := by
  cases d <;> simp_all [DeviceCall.isModeSet, DeviceCall.isTransfer]

/-- In a call sequence whose head is a mode set, any decomposition around a
transfer call puts at least that mode set in front of it. -/
theorem head_modeSet_split (h : DeviceCall) (t pre post : List DeviceCall) (c : DeviceCall)
    (heq : h :: t = pre ++ c :: post) (hh : h.isModeSet = true) (htr : c.isTransfer = true) :
    ∃ m ∈ pre, m.isModeSet = true := by
  cases pre with
  | nil =>
    simp at heq
    rw [heq.1] at hh
    simp [modeSet_not_transfer c hh] at htr
  | cons p pre₂ =>
    simp at heq
    exact ⟨p, List.mem_cons_self p pre₂, heq.1 ▸ hh⟩

/-- Running a straight-line call sequence against a device issues a prefix of
the planned calls; on failure the raised error is exactly the device's error
on the last issued call, and every earlier call succeeded. -/
theorem runCalls_spec (dev : DeviceCall → Except String Unit) (planned : List DeviceCall) :
    (∃ rest, planned = (runCalls dev planned).1 ++ rest) ∧
    (∀ e, (runCalls dev planned).2 = some e →
      ∃ c, (runCalls dev planned).1.getLast? = some c ∧ dev c = Except.error e ∧
        ∀ c' ∈ (runCalls dev planned).1.dropLast, dev c' = Except.ok ()) := by
  induction planned with
  | nil => exact ⟨⟨[], rfl⟩, by intro e h; simp [runCalls] at h⟩
  | cons c cs ih =>
    rcases hdev : dev c with e | u
    · refine ⟨⟨cs, by simp [runCalls, hdev]⟩, ?_⟩
      intro e' he'
      simp [runCalls, hdev] at he'
      subst he'
      exact ⟨c, by simp [runCalls, hdev], hdev, by simp [runCalls, hdev]⟩
    · obtain ⟨⟨rest, hrest⟩, herr⟩ := ih
      refine ⟨⟨rest, by simp [runCalls, hdev]; exact hrest⟩, ?_⟩
      intro e' he'
      simp [runCalls, hdev] at he'
      obtain ⟨c₀, hlast, hc₀, hpre⟩ := herr e' he'
      cases hr1 : (runCalls dev cs).1 with
      | nil => rw [hr1] at hlast; simp at hlast
      | cons d ds =>
        rw [hr1] at hlast hpre
        refine ⟨c₀, ?_, hc₀, ?_⟩
        · simp [runCalls, hdev, hr1]
          exact hlast
        · simp only [runCalls, hdev, hr1]
          rw [List.dropLast_cons₂]
          intro c' hc'
          rcases List.mem_cons.mp hc' with h | h
          · rw [h, hdev]
          · exact hpre c' h

/-! ## Claims -/

/-- Claim C1 (code bug): the claim says `start_stimulation` with the default
empty trigger list resolves to the identity sequence `0..channelCount-1` and
sends bitmask 255 on an 8-channel device, as the docstring and the symmetric
`stop_stimulation` intend; the code instead guards the resolution with the
identity comparison `triggerIndex is []`, which is always false, so the
default call sends `bitmap([]) = 0`, while the documented resolution would
send `bitmap(range 8) = 255`. -/
theorem C1_start_default_never_resolves :
    start_stimulation 8 [] = [DeviceCall.sendStart (bitmap [])] ∧
    bitmap [] = 0 ∧ bitmap (List.range 8) = 255 := by decide

/-- Claim C2: with amplitude and duration sequences of unequal length,
`_download` raises the `ValueError` itself with zero device calls issued;
with equal lengths no error is raised. -/
theorem C2_length_mismatch_validation (ci : List ℕ) (amps durs : List ℤ) (mode : String) :
    (amps.length ≠ durs.length →
      _download ci amps durs mode =
        ([], some "Every amplitude needs a duration and vice versa!")) ∧
    (amps.length = durs.length → (_download ci amps durs mode).2 = none) := by
  constructor
  · intro h; simp [_download, h]
  · intro h
    by_cases hcur : mode = "current" <;> by_cases hvol : mode = "voltage" <;>
      simp [_download, h, hcur, hvol]

/-- Witness for C2 at concrete inputs: `[1]` against `[]` is refused with
zero device calls, `[1]` against `[2]` raises nothing. -/
theorem C2_witness :
    _download [0] [1] [] "current" =
      ([], some "Every amplitude needs a duration and vice versa!") ∧
    (_download [0] [1] [2] "current").2 = none :=
  ⟨(C2_length_mismatch_validation [0] [1] [] "current").1 (by decide),
   (C2_length_mismatch_validation [0] [1] [2] "current").2 rfl⟩

/-- Claim C3, counterexample: the claim says `download` converts with
`round`; the code converts with `int(...)`, truncation toward zero, so at
amplitude 17/10000000 mA (scaled value 1.7) and duration 7/10000 ms (scaled
value 0.7) the transferred samples are 1 and 0, not the rounded 2 and 1. -/
theorem C3_counterexample :
    download 0 [17/10000000] [7/10000] ≠
      ([DeviceCall.setCurrentModeChan 0,
        DeviceCall.prepareAndSendData 0 [round ((17/10000000 : ℚ) * 1000000)]
          [round ((7/10000 : ℚ) * 1000)] "current"], none) := by
  have h1 : download 0 [17/10000000] [7/10000] =
      ([DeviceCall.setCurrentModeChan 0,
        DeviceCall.prepareAndSendData 0 [1] [0] "current"], none) := by
    norm_num [download, _download, set_current_mode, pyInt]
  have h2 : round ((17/10000000 : ℚ) * 1000000) = 2 := by
    rw [show ((17/10000000 : ℚ) * 1000000) = 17/10 by norm_num, round_eq]
    norm_num
  rw [h1, h2]
  intro hcon
  simp at hcon

/-- Claim C3 as amended: `download` converts amplitudes with
`int(a * 1000000)` and durations with `int(s * 1000)` — truncation toward
zero, which lands within one device unit of the exact scaled value and never
exceeds it in magnitude — and, for equal-length inputs, never fails. -/
theorem C3_truncation (chan : ℕ) (amps durs : List ℚ)
    (hlen : amps.length = durs.length) :
    download chan amps durs =
      ([DeviceCall.setCurrentModeChan chan,
        DeviceCall.prepareAndSendData chan
          (amps.map fun a => pyInt (a * 1000000))
          (durs.map fun s => pyInt (s * 1000)) "current"], none) ∧
    ∀ q : ℚ, |(pyInt q : ℚ) - q| < 1 ∧ |(pyInt q : ℚ)| ≤ |q| := by
  constructor
  · simp [download, _download, hlen, set_current_mode]
  · exact pyInt_trunc

/-- Witness for C3 at the counterexample's input and at the scaled value
17/10. -/
theorem C3_witness :
    download 3 [17/10000000] [7/10000] =
      ([DeviceCall.setCurrentModeChan 3,
        DeviceCall.prepareAndSendData 3 [pyInt ((17/10000000 : ℚ) * 1000000)]
          [pyInt ((7/10000 : ℚ) * 1000)] "current"], none) ∧
    (|(pyInt (17/10 : ℚ) : ℚ) - 17/10| < 1 ∧ |(pyInt (17/10 : ℚ) : ℚ)| ≤ |(17/10 : ℚ)|) :=
  ⟨(C3_truncation 3 [17/10000000] [7/10000] rfl).1,
   (C3_truncation 3 [17/10000000] [7/10000] rfl).2 (17/10)⟩

/-- Claim C4: in the call sequence of any `_download` invocation, a waveform
transfer is never issued without a mode-set call strictly before it. -/
theorem C4_mode_set_before_transfer (ci : List ℕ) (amps durs : List ℤ) (mode : String)
    (pre post : List DeviceCall) (c : DeviceCall)
    (hsplit : (_download ci amps durs mode).1 = pre ++ c :: post)
    (htr : c.isTransfer = true) :
    ∃ m ∈ pre, m.isModeSet = true := by
  by_cases hlen : amps.length ≠ durs.length
  · simp [_download, hlen] at hsplit
  · by_cases hcur : mode = "current"
    · cases ci with
      | nil =>
        have hfst : (_download [] amps durs mode).1 = [DeviceCall.setCurrentModeAll] := by
          simp [_download, hlen, hcur, set_current_mode]
        rw [hfst] at hsplit
        exact head_modeSet_split _ _ _ _ _ hsplit rfl htr
      | cons x xs =>
        have hfst : (_download (x :: xs) amps durs mode).1 =
            DeviceCall.setCurrentModeChan x ::
              (xs.map DeviceCall.setCurrentModeChan ++
                (x :: xs).map (fun chan =>
                  DeviceCall.prepareAndSendData chan amps durs "current")) := by
          simp [_download, hlen, hcur, set_current_mode]
        rw [hfst] at hsplit
        exact head_modeSet_split _ _ _ _ _ hsplit rfl htr
    · by_cases hvol : mode = "voltage"
      · cases ci with
        | nil =>
          have hfst : (_download [] amps durs mode).1 = [DeviceCall.setVoltageModeAll] := by
            simp [_download, hlen, hcur, hvol, set_voltage_mode]
          rw [hfst] at hsplit
          exact head_modeSet_split _ _ _ _ _ hsplit rfl htr
        | cons x xs =>
          have hfst : (_download (x :: xs) amps durs mode).1 =
              DeviceCall.setVoltageModeChan x ::
                (xs.map DeviceCall.setVoltageModeChan ++
                  (x :: xs).map (fun chan =>
                    DeviceCall.prepareAndSendData chan amps durs "voltage")) := by
            simp [_download, hlen, hcur, hvol, set_voltage_mode]
          rw [hfst] at hsplit
          exact head_modeSet_split _ _ _ _ _ hsplit rfl htr
      · simp [_download, hlen, hcur, hvol] at hsplit

/-- Witness for C4: in the concrete call `_download [3] [1] [2] "current"`
the transfer at position 1 is preceded by the mode set at position 0. -/
theorem C4_witness :
    ∃ m ∈ [DeviceCall.setCurrentModeChan 3], m.isModeSet = true :=
  C4_mode_set_before_transfer [3] [1] [2] "current"
    [DeviceCall.setCurrentModeChan 3] []
    (DeviceCall.prepareAndSendData 3 [1] [2] "current") (by decide) rfl

/-- Claim C5: `diagonalize_triggermap` on a device reporting `n` channels
issues one `SetupTrigger` at base index 0 whose three parallel lists have
exactly `n` entries, with `channelMask[i] = syncOutMask[i] = 2 ^ i` and
`repeatCount[i] = 1` for every `i < n`. -/
theorem C5_diagonalize_triggermap (n : ℕ) :
    diagonalize_triggermap n =
      [DeviceCall.getNumberOfAnalogChannels,
       DeviceCall.setupTrigger 0 ((List.range n).map fun i => 2 ^ i)
         ((List.range n).map fun i => 2 ^ i) (List.replicate n 1)] ∧
    ((List.range n).map fun i => (2 : ℕ) ^ i).length = n ∧
    (List.replicate n (1 : ℕ)).length = n ∧
    ∀ i, i < n → ((List.range n).map fun j => (2 : ℕ) ^ j).getD i 0 = 2 ^ i ∧
      (List.replicate n (1 : ℕ)).getD i 0 = 1 := by
  refine ⟨?_, by simp, by simp, ?_⟩
  · simp [diagonalize_triggermap, Nat.one_shiftLeft, List.map_const]
  · intro i hi
    constructor
    · simp [List.getD_eq_getElem?_getD, List.getElem?_map, List.getElem?_range hi]
    · simp [List.getD_eq_getElem?_getD, List.getElem?_replicate, hi]

/-- Witness for C5 at `n = 4`, entry `i = 2`: channel mask 4, repeat count 1
(so the full `n = 4` map is `[1,2,4,8]`, `[1,2,4,8]`, `[1,1,1,1]`). -/
theorem C5_witness :
    ((List.range 4).map fun j => (2 : ℕ) ^ j).getD 2 0 = 2 ^ 2 ∧
    (List.replicate 4 (1 : ℕ)).getD 2 0 = 1 :=
  (C5_diagonalize_triggermap 4).2.2.2 2 (by decide)

/-- Claim C6: `stop_stimulation` with the default empty selection queries the
live channel count from the device, builds the identity sequence
`0..channelCount-1`, and issues a single stop command carrying its bitmask
(all low `channelCount` bits set). -/
theorem C6_stop_default_all (channelCount : ℕ) :
    stop_stimulation channelCount [] =
      [DeviceCall.getNumberOfAnalogChannels,
       DeviceCall.sendStop (bitmap (List.range channelCount))] ∧
    bitmap (List.range channelCount) = 2 ^ channelCount - 1 :=
  ⟨by simp [stop_stimulation], bitmap_range channelCount⟩

/-- Claim C7: for equal-length samples and a non-empty channel list in
current or voltage mode, `_download` completes without error and its call
sequence is exactly one mode set per named channel followed by exactly one
transfer per named channel, the transfers in the order the channels are
given. -/
theorem C7_one_mode_set_one_transfer_per_channel (ci : List ℕ) (amps durs : List ℤ)
    (mode : String) (hlen : amps.length = durs.length) (hne : ci ≠ [])
    (hmode : mode = "current" ∨ mode = "voltage") :
    ∃ calls, _download ci amps durs mode = (calls, none) ∧
      calls.filter DeviceCall.isModeSet =
        ci.map (fun chan => if mode = "current" then DeviceCall.setCurrentModeChan chan
          else DeviceCall.setVoltageModeChan chan) ∧
      calls.filter DeviceCall.isTransfer =
        ci.map (fun chan => DeviceCall.prepareAndSendData chan amps durs mode) ∧
      calls = calls.filter DeviceCall.isModeSet ++ calls.filter DeviceCall.isTransfer := by
  rcases hmode with h | h <;> subst h
  · have hscm : set_current_mode ci = ci.map DeviceCall.setCurrentModeChan := by
      simp [set_current_mode, hne]
    have e1 : (ci.map DeviceCall.setCurrentModeChan).filter DeviceCall.isModeSet =
        ci.map DeviceCall.setCurrentModeChan :=
      filter_map_eq_self _ _ (fun x => rfl) ci
    have e2 : (ci.map (fun chan => DeviceCall.prepareAndSendData chan amps durs
        "current")).filter DeviceCall.isModeSet = [] :=
      filter_map_eq_nil _ _ (fun x => rfl) ci
    have e3 : (ci.map DeviceCall.setCurrentModeChan).filter DeviceCall.isTransfer = [] :=
      filter_map_eq_nil _ _ (fun x => rfl) ci
    have e4 : (ci.map (fun chan => DeviceCall.prepareAndSendData chan amps durs
        "current")).filter DeviceCall.isTransfer =
        ci.map (fun chan => DeviceCall.prepareAndSendData chan amps durs "current") :=
      filter_map_eq_self _ _ (fun x => rfl) ci
    refine ⟨set_current_mode ci ++ ci.map (fun chan =>
      DeviceCall.prepareAndSendData chan amps durs "current"),
      by simp [_download, hlen], ?_, ?_, ?_⟩
    · rw [hscm, List.filter_append, e1, e2, List.append_nil]
      simp
    · rw [hscm, List.filter_append, e3, e4, List.nil_append]
    · rw [hscm, List.filter_append, List.filter_append, e1, e2, e3, e4,
        List.append_nil, List.nil_append]
  · have hscm : set_voltage_mode ci = ci.map DeviceCall.setVoltageModeChan := by
      simp [set_voltage_mode, hne]
    have e1 : (ci.map DeviceCall.setVoltageModeChan).filter DeviceCall.isModeSet =
        ci.map DeviceCall.setVoltageModeChan :=
      filter_map_eq_self _ _ (fun x => rfl) ci
    have e2 : (ci.map (fun chan => DeviceCall.prepareAndSendData chan amps durs
        "voltage")).filter DeviceCall.isModeSet = [] :=
      filter_map_eq_nil _ _ (fun x => rfl) ci
    have e3 : (ci.map DeviceCall.setVoltageModeChan).filter DeviceCall.isTransfer = [] :=
      filter_map_eq_nil _ _ (fun x => rfl) ci
    have e4 : (ci.map (fun chan => DeviceCall.prepareAndSendData chan amps durs
        "voltage")).filter DeviceCall.isTransfer =
        ci.map (fun chan => DeviceCall.prepareAndSendData chan amps durs "voltage") :=
      filter_map_eq_self _ _ (fun x => rfl) ci
    refine ⟨set_voltage_mode ci ++ ci.map (fun chan =>
      DeviceCall.prepareAndSendData chan amps durs "voltage"),
      by simp [_download, hlen], ?_, ?_, ?_⟩
    · rw [hscm, List.filter_append, e1, e2, List.append_nil]
      simp
    · rw [hscm, List.filter_append, e3, e4, List.nil_append]
    · rw [hscm, List.filter_append, List.filter_append, e1, e2, e3, e4,
        List.append_nil, List.nil_append]

/-- Witness for C7 on channels `[1, 2]` with one current-mode sample. -/
theorem C7_witness :
    ∃ calls, _download [1, 2] [5] [9] "current" = (calls, none) ∧
      calls.filter DeviceCall.isModeSet =
        [1, 2].map (fun chan => if "current" = "current" then DeviceCall.setCurrentModeChan chan
          else DeviceCall.setVoltageModeChan chan) ∧
      calls.filter DeviceCall.isTransfer =
        [1, 2].map (fun chan => DeviceCall.prepareAndSendData chan [5] [9] "current") ∧
      calls = calls.filter DeviceCall.isModeSet ++ calls.filter DeviceCall.isTransfer :=
  C7_one_mode_set_one_transfer_per_channel [1, 2] [5] [9] "current" rfl (by decide)
    (Or.inl rfl)

/-- Claim C8: for every wrapper operation's planned call sequence (start,
stop, trigger-map setup, download in both its forms, property query) and
every device behaviour, the calls actually issued are an initial segment of
the planned ones (no retry, no extra call), and when the device fails the
raised error is the device's error verbatim, the failing call is the last
one issued, and every call before it succeeded. -/
theorem C8_failure_propagation (dev : DeviceCall → Except String Unit)
    (planned : List DeviceCall)
    (_hop : (∃ n t, planned = start_stimulation n t) ∨
      (∃ n t, planned = stop_stimulation n t) ∨
      (∃ n, planned = diagonalize_triggermap n) ∨
      (∃ ci amps durs mode, planned = (_download ci amps durs mode).1) ∨
      (∃ chan amps durs, planned = (download chan amps durs).1) ∨
      planned = channel_count_calls) :
    (∃ rest, planned = (runCalls dev planned).1 ++ rest) ∧
    (∀ e, (runCalls dev planned).2 = some e →
      ∃ c, (runCalls dev planned).1.getLast? = some c ∧ dev c = Except.error e ∧
        ∀ c' ∈ (runCalls dev planned).1.dropLast, dev c' = Except.ok ()) :=
  runCalls_spec dev planned

/-- Witness for C8: the default stop operation run against a device that
fails the stop command. -/
theorem C8_witness :
    (∃ rest, stop_stimulation 2 [] =
      (runCalls devBoom (stop_stimulation 2 [])).1 ++ rest) ∧
    (∀ e, (runCalls devBoom (stop_stimulation 2 [])).2 = some e →
      ∃ c, (runCalls devBoom (stop_stimulation 2 [])).1.getLast? = some c ∧
        devBoom c = Except.error e ∧
        ∀ c' ∈ (runCalls devBoom (stop_stimulation 2 [])).1.dropLast,
          devBoom c' = Except.ok ()) :=
  C8_failure_propagation devBoom (stop_stimulation 2 [])
    (Or.inr (Or.inl ⟨2, [], rfl⟩))

/-- Claim C9: `_download` with equal-length samples and a mode string that is
neither "current" nor "voltage" issues no device call and raises no error —
a silent no-op. -/
theorem C9_unknown_mode_silent_noop (ci : List ℕ) (amps durs : List ℤ) (mode : String)
    (hlen : amps.length = durs.length) (hc : mode ≠ "current") (hv : mode ≠ "voltage") :
    _download ci amps durs mode = ([], none) := by
  simp [_download, hlen, hc, hv]

/-- Witness for C9 at the capitalised mode string "Current". -/
theorem C9_witness : _download [0] [5] [9] "Current" = ([], none) :=
  C9_unknown_mode_silent_noop [0] [5] [9] "Current" rfl (by decide) (by decide)

/-- Claim C10: `_download` with an empty channel list and equal-length
samples sets the electrical mode of ALL channels (the device-wide form of
the mode-set helper) yet transfers no waveform, in current and in voltage
mode alike. -/
theorem C10_empty_channel_list (amps durs : List ℤ) (hlen : amps.length = durs.length) :
    _download [] amps durs "current" = ([DeviceCall.setCurrentModeAll], none) ∧
    _download [] amps durs "voltage" = ([DeviceCall.setVoltageModeAll], none) := by
  constructor <;> simp [_download, hlen, set_current_mode, set_voltage_mode]

/-- Witness for C10 with one sample pair. -/
theorem C10_witness :
    _download [] [5] [9] "current" = ([DeviceCall.setCurrentModeAll], none) ∧
    _download [] [5] [9] "voltage" = ([DeviceCall.setVoltageModeAll], none) :=
  C10_empty_channel_list [5] [9] rfl

end STG4000
